import Mathlib

/-!
Shallow embedding of src/win32/net.cpp (the WinHTTP-based asynchronous
network access layer of the SDK: WinHttpIO together with its per-attempt
WinHttpContext records).

Modelling conventions:
- The driver is modelled for a single logical request: a NetState carries
  the HttpReq record, the (optional) WinHttpContext the request's
  httpiohandle points at, and the driver-level flags touched by the code
  (success, the wakeup event, waiter registration, noinetds).
- Calls into the external WinHTTP library and zlib return values chosen by
  an Oracle record; each step also returns an Actions record logging which
  external calls the step performed (reads and writes issued, buffer
  reserve and commit operations, chunk-size queries, wakeup signals,
  cancellations, context deletions, connectivity reports).
- Machine integers (DWORD sizes, cursors) are modelled as Nat; no branch of
  this file depends on 32-bit overflow.
- HttpReq's buffer protocol (reserveput and completeput) and the
  WinHttpContext constructor live outside src/ (http.cpp and meganet.h);
  where their behaviour matters it is modelled from the spec and marked so
  in the doc comment of the definition.
-/

namespace WinNet

/-- Request lifecycle status of an HttpReq (REQ_PREPARED, REQ_INFLIGHT,
REQ_SUCCESS, REQ_FAILURE). -/
inductive ReqStatus
  | prepared
  | inflight
  | success
  | failure
deriving DecidableEq, Repr

/-- Classes of return codes of the zlib inflate call (an external
collaborator): Z_OK (progress), Z_STREAM_END (clean logical end), or any
other return code. -/
inductive ZRet
  | ok
  | streamEnd
  | other
deriving DecidableEq, Repr

/-- The observable part of the z_stream record used by net.cpp: remaining
output capacity (avail_out) plus running totals of compressed bytes fed and
decompressed bytes written. -/
structure ZStream where
  availOut : Nat
  totalIn : Nat
  totalOut : Nat
deriving DecidableEq, Repr

/-- The fields of HttpReq that net.cpp reads or writes. `httpiohandle`
models whether req->httpiohandle currently points at a WinHttpContext;
`buf` models req->buf being non-null (response buffered raw); `bufpos` and
`inLen` model the incoming-buffer cursor and req->in.size(). -/
structure HttpReqS where
  status : ReqStatus
  httpstatus : Nat
  httpiohandle : Bool
  buf : Bool
  isJson : Bool
  bufpos : Nat
  inLen : Nat
  contentlength : Nat
  outLen : Nat
deriving DecidableEq, Repr

/-- The per-attempt WinHttpContext of meganet.h as used by net.cpp:
back-reference presence (httpctx->req non-null), the two transport handles,
the gzip flag, the z_stream, and the chunked-upload cursor pair. -/
structure WinHttpContext where
  reqBound : Bool
  hConnect : Bool
  hRequest : Bool
  gzip : Bool
  z : ZStream
  postpos : Nat
  postlen : Nat
deriving DecidableEq, Repr

/-- Driver-plus-request state: the request record, the context object (none
once deleted by the handle-closing notification), and the WinHttpIO fields
the file touches. -/
structure NetState where
  req : HttpReqS
  ctx : Option WinHttpContext
  success : Bool
  wakeup : Bool
  waiter : Bool
  noinetds : Bool
deriving DecidableEq, Repr

/-- Results of the external WinHTTP and zlib calls a callback invocation
may perform, supplied by the environment. -/
structure Oracle where
  readDataOk : Bool
  queryDataOk : Bool
  writeDataOk : Bool
  receiveRespOk : Bool
  inflateRet : ZRet
  inflateWritten : Nat
  statusCode : Option Nat
  ocl : Option Nat
  contentEncoding : Option String
deriving DecidableEq, Repr

/-- Log of the externally visible calls one step performed. -/
structure Actions where
  wakeups : Nat
  queriedData : Bool
  readCalled : Option Nat
  writeIssued : Option Nat
  receiveIssued : Bool
  committed : Option Nat
  reserved : Option Nat
  freedCtx : Bool
  cancelCalled : Bool
  inetReport : Option Bool
  inflateFed : Option Nat
deriving DecidableEq, Repr

/-- The empty action log. -/
def noActs : Actions where
  wakeups := 0
  queriedData := false
  readCalled := none
  writeIssued := none
  receiveIssued := false
  committed := none
  reserved := none
  freedCtx := false
  cancelCalled := false
  inetReport := none
  inflateFed := none

/-- WinHttpIO callback events, abstracted from the WINHTTP_CALLBACK_STATUS
codes dispatched in asynccallback. `sendOrWriteComplete` covers both
SENDREQUEST_COMPLETE and WRITE_COMPLETE, which share one branch. The
`requestError` flag records whether GetLastError() was
ERROR_WINHTTP_TIMEOUT. -/
inductive Event
  | handleClosing
  | dataAvailable (size : Nat)
  | readComplete (n : Nat)
  | headersAvailable
  | requestError (timeout : Bool)
  | secureFailure
  | sendOrWriteComplete
deriving DecidableEq, Repr

/-- WinHttpIO::cancel (net.cpp lines 419-441): if req->httpiohandle is
attached, null the context's back-reference, zero httpstatus, set status to
REQ_FAILURE, detach the handle, and close both transport handles. The
context object itself is not freed here. -/
def cancel (s : NetState) : NetState :=
  if s.req.httpiohandle then
    { s with
        req := { s.req with
          httpstatus := 0
          status := ReqStatus.failure
          httpiohandle := false }
        ctx := s.ctx.map fun c =>
          { c with reqBound := false, hConnect := false, hRequest := false } }
  else
    s

/-- WinHttpIO::asynccallback (net.cpp lines 87-315), one invocation for one
event, parameterised by the chunk-size constant C (HTTP_POST_CHUNK_SIZE)
and the oracle o for the external calls made during the invocation. If the
context has already been deleted the invocation is outside the model and is
the identity. -/
def asynccallback (C : Nat) (o : Oracle) (e : Event) (s : NetState) :
    NetState × Actions :=
  match s.ctx with
  | none => (s, noActs)
  | some ctx =>
    -- HANDLE_CLOSING: assert(!httpctx->req); delete httpctx; return
    if e = Event.handleClosing then
      ({ s with ctx := none }, { noActs with freedCtx := true })
    -- cancellations that occurred after asynccallback was entered: req null
    else if ctx.reqBound = false then
      (s, noActs)
    else
      match e with
      | Event.handleClosing => (s, noActs)  -- unreachable: handled above
      | Event.dataAvailable size =>
        if size = 0 then
          ({ s with
              req := { s.req with
                status := if s.req.httpstatus = 200 then ReqStatus.success else ReqStatus.failure }
              success := true
              wakeup := true },
            { noActs with wakeups := 2 })
        else
          let acts0 : Actions :=
            { noActs with
                readCalled := some size
                reserved := if ctx.gzip then none else some size
                wakeups := 1 }
          if o.readDataOk then
            if ctx.gzip then
              let w := min o.inflateWritten ctx.z.availOut
              let z' : ZStream :=
                { availOut := ctx.z.availOut - w
                  totalIn := ctx.z.totalIn + size
                  totalOut := ctx.z.totalOut + w }
              let s1 := { s with ctx := some { ctx with z := z' } }
              if o.inflateRet ≠ ZRet.ok ∧
                  (o.inflateRet ≠ ZRet.streamEnd ∨ z'.availOut ≠ 0) then
                ({ cancel s1 with wakeup := true },
                  { acts0 with inflateFed := some size, cancelCalled := true })
              else
                ({ s1 with wakeup := true }, { acts0 with inflateFed := some size })
            else
              ({ s with wakeup := true }, acts0)
          else
            ({ cancel s with wakeup := true }, { acts0 with cancelCalled := true })
      | Event.readComplete n =>
        if n ≠ 0 then
          -- req->completeput(n): commit n bytes (collaborator, spec commitBuffer)
          let s1 := { s with req := { s.req with bufpos := s.req.bufpos + n } }
          if o.queryDataOk then
            (s1, { noActs with committed := some n, queriedData := true })
          else
            ({ cancel s1 with wakeup := true },
              { noActs with
                  committed := some n
                  queriedData := true
                  cancelCalled := true
                  wakeups := 1 })
        else
          (s, noActs)
      | Event.headersAvailable =>
        match o.statusCode with
        | none =>
          ({ cancel s with wakeup := true },
            { noActs with cancelCalled := true, wakeups := 1 })
        | some code =>
          let req1 := { s.req with httpstatus := code }
          let rc :=
            if s.req.buf then
              (req1, { ctx with gzip := false })
            else
              match o.ocl with
              | some cl =>
                let req' := { req1 with contentlength := cl }
                let gz : Bool :=
                  match o.contentEncoding with
                  | some enc => enc == "gzip"
                  | none => false
                if gz then
                  ({ req' with inLen := cl },
                    { ctx with
                        gzip := true
                        z := { availOut := cl, totalIn := 0, totalOut := 0 } })
                else
                  (req', { ctx with gzip := false })
              | none => (req1, ctx)
          let s1 := { s with req := rc.1, ctx := some rc.2 }
          if o.queryDataOk then
            (s1, { noActs with
                     queriedData := true
                     inetReport := if s.waiter && s.noinetds then some true else none })
          else
            ({ cancel s1 with wakeup := true },
              { noActs with queriedData := true, cancelCalled := true, wakeups := 1 })
      | Event.requestError timeout =>
        let rep : Option Bool :=
          if s.waiter && !timeout then some false else none
        ({ cancel s with wakeup := true },
          { noActs with cancelCalled := true, wakeups := 1, inetReport := rep })
      | Event.secureFailure =>
        ({ cancel s with wakeup := true },
          { noActs with cancelCalled := true, wakeups := 1 })
      | Event.sendOrWriteComplete =>
        if ctx.postpos < ctx.postlen then
          let pos := ctx.postpos
          let t0 := ctx.postlen - pos
          let t := if t0 > C then C else t0
          let s1 := { s with ctx := some { ctx with postpos := pos + t } }
          if o.writeDataOk then
            ({ s1 with wakeup := true },
              { noActs with writeIssued := some t, wakeups := 1 })
          else
            ({ cancel s1 with wakeup := true },
              { noActs with writeIssued := some t, wakeups := 1, cancelCalled := true })
        else
          if o.receiveRespOk then
            (s, { noActs with receiveIssued := true })
          else
            ({ cancel s with wakeup := true },
              { noActs with receiveIssued := true, cancelCalled := true, wakeups := 1 })

/-- Results of the synchronous external calls made by post: URL conversion
and parse (MultiByteToWideChar and WinHttpCrackUrl), WinHttpConnect,
WinHttpOpenRequest, WinHttpSendRequest. -/
structure PostOracle where
  urlOk : Bool
  connectOk : Bool
  openOk : Bool
  sendOk : Bool
deriving DecidableEq, Repr

/-- The four timeout values configured on a request handle. Modelled from
the documented Win32 WinHttpSetTimeouts signature, whose parameters are, in
order: resolve, connect, send, receive (all in milliseconds). -/
structure Timeouts where
  resolve : Nat
  connect : Nat
  send : Nat
  receive : Nat
deriving DecidableEq, Repr

/-- WinHttpSetTimeouts argument binding (documented Win32 parameter order:
resolve, connect, send, receive). -/
def winHttpSetTimeouts (r c snd rcv : Nat) : Timeouts :=
  { resolve := r, connect := c, send := snd, receive := rcv }

/-- The initial chunk length chosen by post (net.cpp lines 388-390):
postpos = postlen < C ? postlen : C. -/
def initialChunk (C l : Nat) : Nat :=
  if l < C then l else C

/-- WinHttpIO::post (net.cpp lines 318-416), parameterised by the
chunk-size constant C and the synchronous call results. `dataLen` is some
len when an override body pointer was passed, none to use req->out.
Returns the new state together with the timeouts configured on the request
handle (none if WinHttpSetTimeouts was never reached).

The fresh WinHttpContext is created with gzip inactive and zeroed cursors.
Modelled from the spec: the WinHttpContext constructor lives in meganet.h
(not under src/); the spec states the decoder is created only once response
headers declare gzip encoding, so a fresh context has the gzip path off. -/
def post (C : Nat) (o : PostOracle) (s : NetState) (dataLen : Option Nat) :
    NetState × Option Timeouts :=
  let ctx0 : WinHttpContext :=
    { reqBound := true
      hConnect := false
      hRequest := false
      gzip := false
      z := { availOut := 0, totalIn := 0, totalOut := 0 }
      postpos := 0
      postlen := 0 }
  let req1 := { s.req with httpiohandle := true }
  if o.urlOk then
    if o.connectOk then
      let ctx1 := { ctx0 with hConnect := true, hRequest := o.openOk }
      if o.openOk then
        let tmo := winHttpSetTimeouts 0 20000 20000 1800000
        let plen := match dataLen with | some l => l | none => s.req.outLen
        let ctx2 := { ctx1 with postlen := plen, postpos := initialChunk C plen }
        if o.sendOk then
          ({ s with
              req := { req1 with status := ReqStatus.inflight }
              ctx := some ctx2 }, some tmo)
        else
          ({ s with
              req := { req1 with status := ReqStatus.failure }
              ctx := some ctx2 }, some tmo)
      else
        ({ s with
            req := { req1 with status := ReqStatus.failure }
            ctx := some ctx1 }, none)
    else
      -- connect failed: hRequest = NULL (line 406)
      ({ s with
          req := { req1 with status := ReqStatus.failure }
          ctx := some { ctx0 with hRequest := false } }, none)
  else
    -- URL conversion or parse failed: hRequest = hConnect = NULL (411-412)
    ({ s with
        req := { req1 with status := ReqStatus.failure }
        ctx := some { ctx0 with hRequest := false, hConnect := false } }, none)

/-- WinHttpIO::postpos (net.cpp line 444): the upload progress query reads
the context's postpos cursor. -/
def postposQuery (c : WinHttpContext) : Nat :=
  c.postpos

/-- The chunk length computed by the SENDREQUEST/WRITE_COMPLETE branch
(net.cpp lines 288-293) when rem = postlen - postpos bytes remain. -/
def nextChunkSize (C rem : Nat) : Nat :=
  if rem > C then C else rem

/-- The lengths of the chunks written by successive sendOrWriteComplete
steps starting from cursor pos, total len, with fuel bounding recursion
depth. -/
def writeChunksAux (C : Nat) : Nat → Nat → Nat → List Nat
  | 0, _, _ => []
  | fuel + 1, pos, len =>
    if pos < len then
      nextChunkSize C (len - pos) ::
        writeChunksAux C fuel (pos + nextChunkSize C (len - pos)) len
    else []

/-- The full sequence of body chunks for a post of length l: the initial
chunk passed to WinHttpSendRequest followed by the chunks written on the
SendOrWriteComplete events. -/
def sendChunks (C l : Nat) : List Nat :=
  initialChunk C l :: writeChunksAux C l (initialChunk C l) l

/-! Concrete fixtures used to exercise the model on explicit inputs. -/

/-- A freshly prepared JSON POST request with a 7-byte body. -/
def req0 : HttpReqS where
  status := ReqStatus.prepared
  httpstatus := 0
  httpiohandle := false
  buf := false
  isJson := true
  bufpos := 0
  inLen := 0
  contentlength := 0
  outLen := 7

/-- Initial driver state holding req0, no context yet. -/
def state0 : NetState where
  req := req0
  ctx := none
  success := false
  wakeup := false
  waiter := true
  noinetds := false

/-- All synchronous post setup calls succeed. -/
def postOk : PostOracle where
  urlOk := true
  connectOk := true
  openOk := true
  sendOk := true

/-- Post oracle where the URL conversion or parse fails. -/
def postUrlFail : PostOracle where
  urlOk := false
  connectOk := false
  openOk := false
  sendOk := false

/-- All external calls succeed; headers report status 200, an
Original-Content-Length of 2 and Content-Encoding gzip. -/
def oAllOk : Oracle where
  readDataOk := true
  queryDataOk := true
  writeDataOk := true
  receiveRespOk := true
  inflateRet := ZRet.ok
  inflateWritten := 0
  statusCode := some 200
  ocl := some 2
  contentEncoding := some "gzip"

/-- State after a successful post of req0: in flight, context attached. -/
def stateInflight : NetState := (post 16384 postOk state0 none).1

/-- State after the headers-available callback: httpstatus 200. -/
def stateHeaders : NetState :=
  (asynccallback 16384 oAllOk Event.headersAvailable stateInflight).1

/-- State after the zero-size data-available callback: natural completion,
status REQ_SUCCESS, context still attached. -/
def stateDone : NetState :=
  (asynccallback 16384 oAllOk (Event.dataAvailable 0) stateHeaders).1

/-- A context in gzip streaming mode with 5 bytes of output capacity. -/
def ctxGzip : WinHttpContext where
  reqBound := true
  hConnect := true
  hRequest := true
  gzip := true
  z := { availOut := 5, totalIn := 0, totalOut := 0 }
  postpos := 7
  postlen := 7

/-- An in-flight state whose context is ctxGzip, with a declared content
length of 5 matching the decoder's output capacity. -/
def stateGzip : NetState :=
  { state0 with
      req := { req0 with
        httpiohandle := true
        status := ReqStatus.inflight
        contentlength := 5 }
      ctx := some ctxGzip }

/-! Theorems. -/

/-- C9 counterexample: post configures the request handle by passing the
literal arguments (0, 20000, 20000, 1800000) to WinHttpSetTimeouts, whose
documented parameter order is resolve, connect, send, receive. The
configured connect timeout is therefore 20000, not 0 (the 0 is the resolve
timeout), and the configured receive timeout is 1800000, not 20000; there
is no separate overall-cap parameter. This refutes the claim that connect =
0, receive = 20000 and 1800000 is an overall cap. -/
theorem c9_counterexample :
    (post 16384 postOk state0 none).2 = some (winHttpSetTimeouts 0 20000 20000 1800000) ∧
    (winHttpSetTimeouts 0 20000 20000 1800000).connect = 20000 ∧
    ¬(winHttpSetTimeouts 0 20000 20000 1800000).connect = 0 ∧
    (winHttpSetTimeouts 0 20000 20000 1800000).receive = 1800000 ∧
    ¬(winHttpSetTimeouts 0 20000 20000 1800000).receive = 20000 := by
  decide

/-- C9 (amended): every request handle created by post (whenever the
open-request step is reached) is configured with transport timeouts
resolve = 0 (disabled), connect = 20000, send = 20000 and receive =
1800000 milliseconds. -/
theorem c9_amended_timeouts (C : Nat) (o : PostOracle) (s : NetState)
    (dl : Option Nat) (hu : o.urlOk = true) (hcn : o.connectOk = true)
    (hop : o.openOk = true) :
    (post C o s dl).2 =
      some { resolve := 0, connect := 20000, send := 20000, receive := 1800000 } := by
  rcases o with ⟨u, cn, op, sd⟩
  cases sd <;> simp_all [post, winHttpSetTimeouts]

/-- C9 amended witness at the concrete all-success post of req0. -/
theorem c9_amended_witness :
    postOk.urlOk = true ∧ postOk.connectOk = true ∧ postOk.openOk = true ∧
    (post 16384 postOk state0 none).2 =
      some { resolve := 0, connect := 20000, send := 20000, receive := 1800000 } :=
  ⟨by decide, by decide, by decide,
    c9_amended_timeouts 16384 postOk state0 none (by decide) (by decide) (by decide)⟩

/-- C10: a READ_COMPLETE callback reporting zero bytes transferred, on a
still-bound request, is a complete no-op: the state is returned unchanged
and no external call (no commit, no chunk-size query, no read, no wakeup)
is performed. -/
theorem c10_zero_read_noop (C : Nat) (o : Oracle) (s : NetState)
    (ctx : WinHttpContext) (hc : s.ctx = some ctx) (hb : ctx.reqBound = true) :
    asynccallback C o (Event.readComplete 0) s = (s, noActs) := by
  simp [asynccallback, hc, hb]

/-- C10 witness at the concrete gzip-mode in-flight state. -/
theorem c10_witness :
    stateGzip.ctx = some ctxGzip ∧ ctxGzip.reqBound = true ∧
    asynccallback 16384 oAllOk (Event.readComplete 0) stateGzip = (stateGzip, noActs) :=
  ⟨by decide, by decide,
    c10_zero_read_noop 16384 oAllOk stateGzip ctxGzip (by decide) (by decide)⟩

/-- C8: a DATA_AVAILABLE callback with size 0 on a still-bound request sets
the status to REQ_SUCCESS exactly when httpstatus is 200 and to REQ_FAILURE
otherwise, signals the wakeup event, and issues no read, no chunk-size
query and no cancellation. -/
theorem c8_zero_chunk_completion (C : Nat) (o : Oracle) (s : NetState)
    (ctx : WinHttpContext) (hc : s.ctx = some ctx) (hb : ctx.reqBound = true) :
    (asynccallback C o (Event.dataAvailable 0) s).1.req.status =
      (if s.req.httpstatus = 200 then ReqStatus.success else ReqStatus.failure) ∧
    (asynccallback C o (Event.dataAvailable 0) s).1.wakeup = true ∧
    1 ≤ (asynccallback C o (Event.dataAvailable 0) s).2.wakeups ∧
    (asynccallback C o (Event.dataAvailable 0) s).2.readCalled = none ∧
    (asynccallback C o (Event.dataAvailable 0) s).2.queriedData = false ∧
    (asynccallback C o (Event.dataAvailable 0) s).2.cancelCalled = false := by
  simp [asynccallback, hc, hb, noActs]

/-- C8 witness at the concrete headers-received state (httpstatus 200). -/
theorem c8_witness :
    stateHeaders.ctx = some (stateHeaders.ctx.getD ctxGzip) ∧
    (stateHeaders.ctx.getD ctxGzip).reqBound = true ∧
    (asynccallback 16384 oAllOk (Event.dataAvailable 0) stateHeaders).1.req.status =
      (if stateHeaders.req.httpstatus = 200 then ReqStatus.success else ReqStatus.failure) :=
  ⟨by decide, by decide,
    (c8_zero_chunk_completion 16384 oAllOk stateHeaders
      (stateHeaders.ctx.getD ctxGzip) (by decide) (by decide)).1⟩

/-- C4 counterexample: a post whose URL conversion or parse fails sets the
status to REQ_FAILURE but leaves req->httpiohandle pointing at the freshly
allocated context, refuting the claim that no context is attached after a
failed post. -/
theorem c4_counterexample :
    (post 16384 postUrlFail state0 none).1.req.status = ReqStatus.failure ∧
    (post 16384 postUrlFail state0 none).1.req.httpiohandle = true := by
  decide

/-- C4 (amended): on any synchronous setup failure (URL conversion or
parse, connect, open-request, or send), post sets the request status to
REQ_FAILURE, but the freshly allocated context remains attached through
req->httpiohandle with its back-reference to the request still set. -/
theorem c4_amended_post_failure (C : Nat) (o : PostOracle) (s : NetState)
    (dl : Option Nat)
    (hfail : ¬(o.urlOk = true ∧ o.connectOk = true ∧ o.openOk = true ∧ o.sendOk = true)) :
    (post C o s dl).1.req.status = ReqStatus.failure ∧
    (post C o s dl).1.req.httpiohandle = true ∧
    ∃ c, (post C o s dl).1.ctx = some c ∧ c.reqBound = true := by
  rcases o with ⟨u, cn, op, sd⟩
  cases u <;> cases cn <;> cases op <;> cases sd <;> simp_all [post]

/-- C4 amended witness at the concrete URL-failure post of req0. -/
theorem c4_amended_witness :
    ¬(postUrlFail.urlOk = true ∧ postUrlFail.connectOk = true ∧
        postUrlFail.openOk = true ∧ postUrlFail.sendOk = true) ∧
    (post 16384 postUrlFail state0 none).1.req.status = ReqStatus.failure :=
  ⟨by decide,
    (c4_amended_post_failure 16384 postUrlFail state0 none (by decide)).1⟩

/-- C1 counterexample: a concrete run (successful post of req0, headers
with status 200, then natural completion through the zero-size
DATA_AVAILABLE event) reaches status REQ_SUCCESS with the context still
attached to the request; calling cancel on that completed request then
overwrites the status with REQ_FAILURE. This refutes the claim that once
the status reaches Success no later cancel call changes it, and in
particular that cancel after natural completion has no effect on status. -/
theorem c1_counterexample :
    stateDone.req.status = ReqStatus.success ∧
    stateDone.req.httpiohandle = true ∧
    (cancel stateDone).req.status = ReqStatus.failure ∧
    ¬(cancel stateDone).req.status = stateDone.req.status := by
  decide

/-- C1 (amended): status is driven forward by post (to InFlight or
Failure) and by callbacks (which either keep it or move it to Success or
Failure), and once the request is detached (httpiohandle cleared) neither
cancel nor any callback for its old context changes the request record at
all; however cancel on a request whose context is still attached always
forces status to Failure and httpstatus to 0 — including after natural
completion, since completion does not detach the context — after which a
second cancel is a no-op. -/
theorem c1_amended_status_machine (s : NetState) :
    (s.req.httpiohandle = false → cancel s = s) ∧
    (s.req.httpiohandle = true →
      (cancel s).req.status = ReqStatus.failure ∧
      (cancel s).req.httpstatus = 0 ∧
      (cancel s).req.httpiohandle = false ∧
      cancel (cancel s) = cancel s) ∧
    (∀ ctx, s.ctx = some ctx → ctx.reqBound = false →
      ∀ C o e, (asynccallback C o e s).1.req = s.req) ∧
    (∀ C o e, (asynccallback C o e s).1.req.status = s.req.status ∨
      (asynccallback C o e s).1.req.status = ReqStatus.success ∨
      (asynccallback C o e s).1.req.status = ReqStatus.failure) ∧
    (∀ C o dl, (post C o s dl).1.req.status = ReqStatus.inflight ∨
      (post C o s dl).1.req.status = ReqStatus.failure) := by
  refine ⟨?_, ?_, ?_, ?_, ?_⟩
  · intro h
    simp [cancel, h]
  · intro h
    simp [cancel, h]
  · intro ctx hc hb C o e
    cases e <;> simp [asynccallback, hc, hb]
  · intro C o e
    rcases hctx : s.ctx with _ | ctx
    · simp [asynccallback, hctx]
    · rcases hb : ctx.reqBound with _ | _
      · cases e <;> simp [asynccallback, hctx, hb]
      · cases e <;>
          simp only [asynccallback, hctx, hb] <;>
          (repeat' split) <;>
          simp_all [cancel] <;>
          (repeat' split) <;>
          simp_all
  · intro C o dl
    rcases o with ⟨u, cn, op, sd⟩
    cases u <;> cases cn <;> cases op <;> cases sd <;> simp [post]

/-- C1 amended witness at the concrete completed state. -/
theorem c1_amended_witness :
    stateDone.req.httpiohandle = true ∧
    (cancel stateDone).req.status = ReqStatus.failure :=
  ⟨by decide, ((c1_amended_status_machine stateDone).2.1 (by decide)).1⟩

/-- C3: once cancellation has detached the request (context back-reference
null and httpiohandle cleared), a second cancel returns the state
unchanged; any callback invocation for that context with an event other
than HANDLE_CLOSING returns the whole state unchanged with an empty action
log (in particular the context object is not freed); and the
HANDLE_CLOSING notification is exactly what frees the context object. -/
theorem c3_detached_noop (s : NetState) (ctx : WinHttpContext)
    (hc : s.ctx = some ctx) (hd : ctx.reqBound = false)
    (hh : s.req.httpiohandle = false) :
    cancel s = s ∧
    (∀ C o e, ¬e = Event.handleClosing → asynccallback C o e s = (s, noActs)) ∧
    (∀ C o, asynccallback C o Event.handleClosing s =
      ({ s with ctx := none }, { noActs with freedCtx := true })) := by
  refine ⟨by simp [cancel, hh], ?_, ?_⟩
  · intro C o e he
    cases e <;> simp_all [asynccallback, hc, hd]
  · intro C o
    simp [asynccallback, hc]

/-- C3 witness at the concrete detached state obtained by cancelling the
in-flight state. -/
theorem c3_witness :
    (cancel stateInflight).ctx = some ((cancel stateInflight).ctx.getD ctxGzip) ∧
    ((cancel stateInflight).ctx.getD ctxGzip).reqBound = false ∧
    (cancel stateInflight).req.httpiohandle = false ∧
    cancel (cancel stateInflight) = cancel stateInflight :=
  ⟨by decide, by decide, by decide,
    (c3_detached_noop (cancel stateInflight)
      ((cancel stateInflight).ctx.getD ctxGzip)
      (by decide) (by decide) (by decide)).1⟩

/-- C2 counterexample: a READ_COMPLETE event delivering 3 bytes on a
request in gzip streaming mode does not feed anything to the decompressor
(the z_stream and the whole context are unchanged and no inflate call is
logged); instead it commits the 3 bytes through the completion operation
and issues the next chunk-size query, exactly as in the non-gzip path. The
inflate feed the claim describes happens in the DATA_AVAILABLE handler, not
here. This refutes the claim that a ReadComplete event with gzip active
feeds the bytes to the DecompressionStream. -/
theorem c2_counterexample :
    stateGzip.ctx = some ctxGzip ∧ ctxGzip.gzip = true ∧ ctxGzip.reqBound = true ∧
    (asynccallback 16384 oAllOk (Event.readComplete 3) stateGzip).2.inflateFed = none ∧
    (asynccallback 16384 oAllOk (Event.readComplete 3) stateGzip).1.ctx = some ctxGzip ∧
    (asynccallback 16384 oAllOk (Event.readComplete 3) stateGzip).2.committed = some 3 ∧
    (asynccallback 16384 oAllOk (Event.readComplete 3) stateGzip).2.queriedData = true := by
  decide

/-- C2 (amended): on a READ_COMPLETE event carrying n > 0 bytes with the
request still bound, regardless of whether gzip is active, exactly n bytes
are committed into the incoming buffer via the completion operation and the
next chunk-size query is issued; if that query fails the request is
cancelled (status Failure), otherwise state is unchanged apart from the
commit. The gzip feed happens instead during DATA_AVAILABLE(size > 0)
processing, where the bytes read are handed to the decompressor. -/
theorem c2_amended_read_commit (C : Nat) (o : Oracle) (s : NetState)
    (ctx : WinHttpContext) (n : Nat)
    (hc : s.ctx = some ctx) (hb : ctx.reqBound = true)
    (hh : s.req.httpiohandle = true) (hn : ¬n = 0) :
    (asynccallback C o (Event.readComplete n) s).2.committed = some n ∧
    (asynccallback C o (Event.readComplete n) s).1.req.bufpos = s.req.bufpos + n ∧
    (asynccallback C o (Event.readComplete n) s).2.queriedData = true ∧
    (asynccallback C o (Event.readComplete n) s).2.inflateFed = none ∧
    (o.queryDataOk = true →
      (asynccallback C o (Event.readComplete n) s).1.ctx = s.ctx ∧
      (asynccallback C o (Event.readComplete n) s).1.req.status = s.req.status) ∧
    (o.queryDataOk = false →
      (asynccallback C o (Event.readComplete n) s).2.cancelCalled = true ∧
      (asynccallback C o (Event.readComplete n) s).1.req.status = ReqStatus.failure) ∧
    (∀ m, ¬m = 0 → ctx.gzip = true → o.readDataOk = true →
      (asynccallback C o (Event.dataAvailable m) s).2.inflateFed = some m ∧
      ∀ c', (asynccallback C o (Event.dataAvailable m) s).1.ctx = some c' →
        c'.z.totalIn = ctx.z.totalIn + m) := by
  refine ⟨?_, ?_, ?_, ?_, ?_, ?_, ?_⟩
  · rcases hq : o.queryDataOk <;> simp [asynccallback, hc, hb, hn, hq, cancel, hh]
  · rcases hq : o.queryDataOk <;> simp [asynccallback, hc, hb, hn, hq, cancel, hh]
  · rcases hq : o.queryDataOk <;> simp [asynccallback, hc, hb, hn, hq, cancel, hh]
  · rcases hq : o.queryDataOk <;> simp [asynccallback, hc, hb, hn, hq, cancel, hh, noActs]
  · intro hq
    simp [asynccallback, hc, hb, hn, hq]
  · intro hq
    simp [asynccallback, hc, hb, hn, hq, cancel, hh]
  · intro m hm hg hr
    constructor
    · simp only [asynccallback, hc, hb, hm, hr, hg]
      simp [hm, noActs]
      split <;> simp [cancel, hh]
    · by_cases hsp : (¬o.inflateRet = ZRet.ok ∧
          (¬o.inflateRet = ZRet.streamEnd ∨
            ¬(ctx.z.availOut - min o.inflateWritten ctx.z.availOut) = 0)) <;>
        intro c' hc' <;>
        simp [asynccallback, hc, hb, hm, hr, hg, hsp, cancel, hh] at hc' <;>
        simp [← hc']

/-- C2 amended witness at the concrete gzip-mode state, 3 bytes. -/
theorem c2_amended_witness :
    stateGzip.ctx = some ctxGzip ∧ ctxGzip.reqBound = true ∧
    stateGzip.req.httpiohandle = true ∧ ¬(3 : Nat) = 0 ∧
    (asynccallback 16384 oAllOk (Event.readComplete 3) stateGzip).2.committed = some 3 :=
  ⟨by decide, by decide, by decide, by decide,
    (c2_amended_read_commit 16384 oAllOk stateGzip ctxGzip 3
      (by decide) (by decide) (by decide) (by decide)).1⟩

/-- Helper: the write loop produces nothing once the cursor has reached the
total. -/
theorem writeChunksAux_nil (C len : Nat) : ∀ fuel, writeChunksAux C fuel len len = [] := by
  intro fuel
  cases fuel <;> simp [writeChunksAux]

/-- Helper: a chunk computed for a positive remainder is positive when the
chunk-size constant is. -/
theorem nextChunkSize_pos (C rem : Nat) (hC : 0 < C) (hr : 0 < rem) :
    0 < nextChunkSize C rem := by
  simp [nextChunkSize]
  split <;> omega

/-- Helper: the chunks written after the initial send sum to the remaining
length, given enough fuel. -/
theorem writeChunksAux_sum (C : Nat) (hC : 0 < C) :
    ∀ fuel pos len, pos ≤ len → len - pos ≤ fuel →
      (writeChunksAux C fuel pos len).sum = len - pos := by
  intro fuel
  induction fuel with
  | zero =>
    intro pos len h1 h2
    simp [writeChunksAux]
    omega
  | succ f ih =>
    intro pos len h1 h2
    by_cases hlt : pos < len
    · have ht : 0 < nextChunkSize C (len - pos) := nextChunkSize_pos C _ hC (by omega)
      have ht2 : nextChunkSize C (len - pos) ≤ len - pos := by
        simp [nextChunkSize]; split <;> omega
      simp [writeChunksAux, hlt]
      rw [ih (pos + nextChunkSize C (len - pos)) len (by omega) (by omega)]
      omega
    · simp [writeChunksAux, hlt]
      omega

/-- Helper: every written chunk is bounded by the chunk-size constant. -/
theorem writeChunksAux_le (C : Nat) :
    ∀ fuel pos len x, x ∈ writeChunksAux C fuel pos len → x ≤ C := by
  intro fuel
  induction fuel with
  | zero => intro pos len x hx; simp [writeChunksAux] at hx
  | succ f ih =>
    intro pos len x hx
    by_cases hlt : pos < len
    · simp [writeChunksAux, hlt] at hx
      rcases hx with rfl | hx
      · unfold nextChunkSize; split <;> omega
      · exact ih _ _ _ hx
    · simp [writeChunksAux, hlt] at hx

/-- Helper: every written chunk except possibly the last equals the
chunk-size constant. -/
theorem writeChunksAux_dropLast (C : Nat) (hC : 0 < C) :
    ∀ fuel pos len, len - pos ≤ fuel →
      ∀ x ∈ (writeChunksAux C fuel pos len).dropLast, x = C := by
  intro fuel
  induction fuel with
  | zero => intro pos len h x hx; simp [writeChunksAux] at hx
  | succ f ih =>
    intro pos len h x hx
    by_cases hlt : pos < len
    · simp only [writeChunksAux, if_pos hlt] at hx
      by_cases hbig : len - pos > C
      · have ht : nextChunkSize C (len - pos) = C := by simp [nextChunkSize, hbig]
        rcases hrest : writeChunksAux C f (pos + nextChunkSize C (len - pos)) len with _ | ⟨b, l'⟩
        · simp [hrest] at hx
        · rw [hrest] at hx
          simp only [List.dropLast_cons₂] at hx
          rcases List.mem_cons.mp hx with rfl | hx'
          · exact ht
          · have := ih (pos + nextChunkSize C (len - pos)) len (by simp [ht]; omega)
            rw [hrest] at this
            exact this x hx'
      · have ht : nextChunkSize C (len - pos) = len - pos := by
          simp [nextChunkSize]; omega
        rw [ht] at hx
        rw [show pos + (len - pos) = len by omega] at hx
        rw [writeChunksAux_nil C len f] at hx
        simp at hx
    · simp [writeChunksAux, hlt] at hx

/-- C5: for any positive chunk-size constant, the chunk sequence of a post
of length l (initial chunk plus the chunks written on SendOrWriteComplete
events while the cursor is short of the total) sums exactly to l, every
chunk is at most the constant, every chunk except the final one equals the
constant, the initial chunk never exceeds the total, the cursor set up by
post never exceeds the total, and each write step emits exactly the next
chunk of that sequence while keeping the cursor at most the total. -/
theorem c5_chunked_send (C l : Nat) (hC : 0 < C) :
    (sendChunks C l).sum = l ∧
    (∀ x ∈ sendChunks C l, x ≤ C) ∧
    (∀ x ∈ (sendChunks C l).dropLast, x = C) ∧
    initialChunk C l ≤ l ∧
    (∀ o s dl c, (post C o s dl).1.ctx = some c → c.postpos ≤ c.postlen) ∧
    (∀ o s ctx, s.ctx = some ctx → ctx.reqBound = true → ctx.postpos < ctx.postlen →
      (asynccallback C o Event.sendOrWriteComplete s).2.writeIssued =
        some (nextChunkSize C (ctx.postlen - ctx.postpos)) ∧
      ∀ c', (asynccallback C o Event.sendOrWriteComplete s).1.ctx = some c' →
        c'.postpos = ctx.postpos + nextChunkSize C (ctx.postlen - ctx.postpos) ∧
        c'.postpos ≤ ctx.postlen) := by
  have hinit : initialChunk C l ≤ l := by unfold initialChunk; split <;> omega
  refine ⟨?_, ?_, ?_, hinit, ?_, ?_⟩
  · simp only [sendChunks, List.sum_cons]
    rw [writeChunksAux_sum C hC l (initialChunk C l) l hinit (by omega)]
    omega
  · intro x hx
    rcases List.mem_cons.mp hx with rfl | hx'
    · unfold initialChunk; split <;> omega
    · exact writeChunksAux_le C l (initialChunk C l) l x hx'
  · intro x hx
    unfold sendChunks at hx
    by_cases hsmall : l < C
    · rw [show initialChunk C l = l by unfold initialChunk; simp [hsmall]] at hx
      rw [writeChunksAux_nil C l l] at hx
      simp at hx
    · have hCl : C ≤ l := by omega
      rw [show initialChunk C l = C by unfold initialChunk; simp [hsmall]] at hx
      rcases hrest : writeChunksAux C l C l with _ | ⟨b, l'⟩
      · rw [hrest] at hx
        simp at hx
      · rw [hrest] at hx
        simp only [List.dropLast_cons₂] at hx
        rcases List.mem_cons.mp hx with rfl | hx'
        · rfl
        · have := writeChunksAux_dropLast C hC l C l (by omega)
          rw [hrest] at this
          exact this x hx'
  · intro o s dl c hctx
    rcases o with ⟨u, cn, op, sd⟩
    cases u <;> cases cn <;> cases op <;> cases sd <;>
      simp_all [post] <;>
      (try rw [← hctx]) <;>
      simp [initialChunk] <;>
      split <;> omega
  · intro o s ctx hc hb hlt
    constructor
    · simp [asynccallback, hc, hb, hlt, nextChunkSize]
      split <;> simp_all [cancel]
    · intro c' hc'
      rcases hw : o.writeDataOk <;> rcases hhio : s.req.httpiohandle <;>
        simp [asynccallback, hc, hb, hlt, hw, hhio, cancel] at hc' <;>
        subst hc' <;>
        simp [nextChunkSize] <;>
        split <;>
        omega

/-- C5 witness: 5000 bytes with chunk size 1000 sum to 5000. -/
theorem c5_witness :
    0 < 1000 ∧ (sendChunks 1000 5000).sum = 5000 :=
  ⟨by decide, (c5_chunked_send 1000 5000 (by decide)).1⟩

/-- C6: on a HEADERS_AVAILABLE event with the request still bound, the
status-code query succeeding, and the context's gzip flag still off (as on
a fresh context): if the response is buffered raw the gzip flag is forced
off; otherwise the gzip path is taken if and only if the
Original-Content-Length numeric header query succeeded and the
Content-Encoding header query returned exactly the string gzip
(case-sensitive string equality); and when it is taken, the decompressor is
initialised with output capacity equal to the declared content length, the
incoming buffer is resized to exactly that length, the declared content
length is recorded on the request, and no body byte has been committed by
this step. -/
theorem c6_headers_gzip (C : Nat) (o : Oracle) (s : NetState)
    (ctx : WinHttpContext) (code : Nat)
    (hc : s.ctx = some ctx) (hb : ctx.reqBound = true)
    (hg : ctx.gzip = false) (hsc : o.statusCode = some code) :
    (∃ c', (asynccallback C o Event.headersAvailable s).1.ctx = some c') ∧
    (∀ c', (asynccallback C o Event.headersAvailable s).1.ctx = some c' →
      (s.req.buf = true → c'.gzip = false) ∧
      (s.req.buf = false →
        (c'.gzip = true ↔ ¬o.ocl = none ∧ o.contentEncoding = some "gzip")) ∧
      (∀ cl, s.req.buf = false → o.ocl = some cl → o.contentEncoding = some "gzip" →
        c'.gzip = true ∧
        (asynccallback C o Event.headersAvailable s).1.req.contentlength = cl ∧
        (asynccallback C o Event.headersAvailable s).1.req.inLen = cl ∧
        c'.z.availOut = cl ∧ c'.z.totalIn = 0 ∧ c'.z.totalOut = 0 ∧
        (asynccallback C o Event.headersAvailable s).1.req.bufpos = s.req.bufpos)) := by
  constructor
  · rcases hbuf : s.req.buf <;>
      rcases hocl : o.ocl with _ | cl0 <;>
      rcases hce : o.contentEncoding with _ | enc <;>
      rcases hq : o.queryDataOk <;>
      rcases hhio : s.req.httpiohandle <;>
      rcases hgz : (o.contentEncoding == some "gzip") <;>
      simp_all [asynccallback, cancel, beq_iff_eq]
  · intro c' hc'
    rcases hbuf : s.req.buf <;>
      rcases hocl : o.ocl with _ | cl0 <;>
      rcases hce : o.contentEncoding with _ | enc <;>
      rcases hq : o.queryDataOk <;>
      rcases hhio : s.req.httpiohandle <;>
      rcases hgz : (o.contentEncoding == some "gzip") <;>
      simp_all [asynccallback, cancel, beq_iff_eq] <;>
      subst hc' <;>
      simp_all

/-- C6 witness at the concrete in-flight state with the gzip headers. -/
theorem c6_witness :
    stateInflight.ctx = some (stateInflight.ctx.getD ctxGzip) ∧
    (stateInflight.ctx.getD ctxGzip).reqBound = true ∧
    (stateInflight.ctx.getD ctxGzip).gzip = false ∧
    oAllOk.statusCode = some 200 ∧
    ∃ c', (asynccallback 16384 oAllOk Event.headersAvailable stateInflight).1.ctx = some c' :=
  ⟨by decide, by decide, by decide, by decide,
    (c6_headers_gzip 16384 oAllOk stateInflight (stateInflight.ctx.getD ctxGzip) 200
      (by decide) (by decide) (by decide) (by decide)).1⟩

/-- C7: a DATA_AVAILABLE event with a positive size in gzip mode, with the
read call succeeding and the decoder's running total plus remaining
capacity equal to the declared content length, preserves that balance, so
the total decompressed bytes written never exceed the declared content
length; the request is cancelled (ending in Failure) exactly when the
inflate call reports a condition other than clean progress or clean
end-of-stream, or reports end-of-stream while output capacity remains; and
if it reports end-of-stream with all capacity consumed, the decompressed
total equals the declared content length. -/
theorem c7_decompress_termination (C : Nat) (o : Oracle) (s : NetState)
    (ctx : WinHttpContext) (m : Nat)
    (hc : s.ctx = some ctx) (hb : ctx.reqBound = true) (hg : ctx.gzip = true)
    (hh : s.req.httpiohandle = true) (hm : ¬m = 0) (hr : o.readDataOk = true)
    (hinv : ctx.z.totalOut + ctx.z.availOut = s.req.contentlength) :
    (∃ c', (asynccallback C o (Event.dataAvailable m) s).1.ctx = some c') ∧
    (∀ c', (asynccallback C o (Event.dataAvailable m) s).1.ctx = some c' →
      c'.z.totalOut + c'.z.availOut = s.req.contentlength ∧
      c'.z.totalOut ≤ s.req.contentlength ∧
      ((asynccallback C o (Event.dataAvailable m) s).2.cancelCalled = true ↔
        (o.inflateRet = ZRet.other ∨
          (o.inflateRet = ZRet.streamEnd ∧ ¬c'.z.availOut = 0))) ∧
      ((asynccallback C o (Event.dataAvailable m) s).2.cancelCalled = true →
        (asynccallback C o (Event.dataAvailable m) s).1.req.status = ReqStatus.failure) ∧
      (o.inflateRet = ZRet.streamEnd ∧ c'.z.availOut = 0 →
        c'.z.totalOut = s.req.contentlength)) := by
  constructor
  · rcases hret : o.inflateRet <;>
      by_cases hao : (ctx.z.availOut - min o.inflateWritten ctx.z.availOut) = 0 <;>
      simp_all [asynccallback, cancel]
  · intro c' hc'
    rcases hret : o.inflateRet <;>
      by_cases hao : (ctx.z.availOut - min o.inflateWritten ctx.z.availOut) = 0 <;>
      simp_all [asynccallback, cancel] <;>
      subst hc' <;>
      simp_all [noActs] <;>
      omega

/-- C7 witness at the concrete gzip-mode state, 4 compressed bytes fed. -/
theorem c7_witness :
    stateGzip.ctx = some ctxGzip ∧ ctxGzip.gzip = true ∧
    stateGzip.req.httpiohandle = true ∧
    ctxGzip.z.totalOut + ctxGzip.z.availOut = stateGzip.req.contentlength ∧
    ∃ c', (asynccallback 16384 oAllOk (Event.dataAvailable 4) stateGzip).1.ctx = some c' :=
  ⟨by decide, by decide, by decide, by decide,
    (c7_decompress_termination 16384 oAllOk stateGzip ctxGzip 4
      (by decide) (by decide) (by decide) (by decide) (by decide) (by decide)
      (by decide)).1⟩

end WinNet
